import Mathlib

/-!
# mtg-nlp-search: the two browser-side helpers

A shallow embedding of `src/sample_queries_frontend.js` (class `SampleQueriesManager`) and of
`src/examples/server_warmup_indicator.js` (class `ServerWarmupIndicator`).

* JavaScript strings are sequences of UTF-16 code units (`JSString`).
* The DOM is a tree of `Node`s; an assignment to `innerHTML` stores the assigned markup, which
  the browser's HTML reader turns into nodes.
* Effects on the host page (history entries, `location.href`, `console.error`, timers) are
  recorded in explicit state.
-/

/-! ## JavaScript strings -/

/-- A JavaScript string value: its sequence of UTF-16 code units (each below `0x10000`). -/
abbrev JSString := List Nat

/-- The UTF-16 code units of one Unicode scalar value. -/
def utf16 (c : Char) : List Nat :=
  if c.toNat < 0x10000 then [c.toNat]
  else [0xD800 + (c.toNat - 0x10000) / 0x400, 0xDC00 + (c.toNat - 0x10000) % 0x400]

/-- The JavaScript string denoted by a source literal. -/
def js (s : String) : JSString := s.toList.flatMap utf16

/-- A thrown JavaScript exception or a promise rejection: the error's name and message. -/
structure JSError where
  name : JSString
  message : JSString
deriving DecidableEq, Repr

/-- Template interpolation of a number that holds an integer, `${n}`. -/
def numberToString (n : Int) : JSString := js (toString n)

/-- Code units `0xD800..0xDBFF`. -/
def isLeadSurrogate (c : Nat) : Bool := 0xD800 ≤ c && c ≤ 0xDBFF

/-- Code units `0xDC00..0xDFFF`. -/
def isTrailSurrogate (c : Nat) : Bool := 0xDC00 ≤ c && c ≤ 0xDFFF

/-- The platform's `String.prototype.isWellFormed`: no surrogate code unit stands alone. -/
def isWellFormed : JSString → Bool
  | [] => true
  | c :: rest =>
    if isLeadSurrogate c then
      match rest with
      | [] => false
      | d :: rest' => isTrailSurrogate d && isWellFormed rest'
    else if isTrailSurrogate c then false
    else isWellFormed rest

/-- The characters `encodeURIComponent` leaves as they are: ASCII letters, digits and
`- _ . ! ~ * ' ( )`. -/
def isUnescaped (c : Nat) : Bool :=
  (65 ≤ c && c ≤ 90) || (97 ≤ c && c ≤ 122) || (48 ≤ c && c ≤ 57) ||
    [45, 95, 46, 33, 126, 42, 39, 40, 41].contains c

/-- The UTF-8 octets of a code point. -/
def utf8 (cp : Nat) : List Nat :=
  if cp < 0x80 then [cp]
  else if cp < 0x800 then [0xC0 + cp / 64, 0x80 + cp % 64]
  else if cp < 0x10000 then [0xE0 + cp / 4096, 0x80 + cp / 64 % 64, 0x80 + cp % 64]
  else [0xF0 + cp / 262144, 0x80 + cp / 4096 % 64, 0x80 + cp / 64 % 64, 0x80 + cp % 64]

/-- One upper-case hexadecimal digit, as a code unit. -/
def hexDigit (d : Nat) : Nat := if d < 10 then 48 + d else 55 + d

/-- Each octet written as `%XX`. -/
def percentEncode (octets : List Nat) : JSString :=
  octets.flatMap fun b => [37, hexDigit (b / 16), hexDigit (b % 16)]

/-- The exception `encodeURIComponent` throws at a lone surrogate. -/
def uriError : JSError := ⟨js "URIError", js "URI malformed"⟩

/-- The platform's `encodeURIComponent` (ECMAScript `Encode` with the unreserved set
`isUnescaped`): unreserved code units are copied, every other code point is written as the
percent-encoded octets of its UTF-8 form, and a surrogate code unit that is not part of a
lead-trail pair throws `URIError`. -/
def encodeURIComponent : JSString → Except JSError JSString
  | [] => .ok []
  | c :: rest =>
    if isUnescaped c then (encodeURIComponent rest).map (c :: ·)
    else if isTrailSurrogate c then .error uriError
    else if isLeadSurrogate c then
      match rest with
      | [] => .error uriError
      | d :: rest' =>
        if isTrailSurrogate d then
          (encodeURIComponent rest').map
            (percentEncode (utf8 ((c - 0xD800) * 0x400 + (d - 0xDC00) + 0x10000)) ++ ·)
        else .error uriError
    else (encodeURIComponent rest).map (percentEncode (utf8 c) ++ ·)

/-- The platform's `Array.prototype.slice(start, end)` with integer arguments: a negative index
counts from the end, and both are clamped to the array. -/
def jsSlice {α : Type} (xs : List α) (start stop : Int) : List α :=
  let len : Int := xs.length
  let k := if start < 0 then max (len + start) 0 else min start len
  let final := if stop < 0 then max (len + stop) 0 else min stop len
  (xs.drop k.toNat).take (final - k).toNat

/-! ## The sample catalog -/

/-- One sample query of the catalog served by `/samples`. -/
structure Query where
  text : JSString
  description : JSString
  expected_min : Int
  expected_max : Int
  tags : List JSString
deriving DecidableEq, Repr

/-- One category of the catalog. -/
structure Category where
  category : JSString
  description : JSString
  queries : List Query
deriving DecidableEq, Repr

/-- The catalog: the JSON body of `/samples`. -/
structure SampleCatalog where
  samples : List Category
deriving DecidableEq, Repr

/-- The object `{...q, category: category.category}` pushed by `renderCompactSamples`. -/
structure CategorisedQuery where
  query : Query
  category : JSString
deriving DecidableEq, Repr

/-- An argument list of `console.error`: the message and the error object, when one is passed. -/
structure ConsoleEntry where
  message : JSString
  error : Option JSError
deriving DecidableEq, Repr

/-- How the `fetch` of a URL ends: the promise rejects, or a response arrives with its `ok`
flag, its status and the outcome of `response.json()` (a rejection, or the parsed value, where
`none` is JSON `null`). -/
inductive FetchOutcome where
  | rejected (reason : JSError)
  | response (ok : Bool) (status : Nat) (json : Except JSError (Option SampleCatalog))
deriving Repr

/-- A fetch outcome on which `loadSamples` fails: a rejected fetch, a response whose `ok` flag
is false, or a body that `response.json()` rejects. -/
def FetchOutcome.isFailure : FetchOutcome → Bool
  | .rejected _ => true
  | .response ok _ json => !ok || !json.toBool

/-- The fields of a `SampleQueriesManager`; `samples` is `null` (`none`) until a load succeeds. -/
structure SampleQueriesManager where
  apiBaseUrl : JSString
  samples : Option SampleCatalog
deriving DecidableEq, Repr

/-- What an `await loadSamples()` leaves: how the returned promise settled (`.ok v` is a value,
`.error e` a rejection that reaches the caller), the manager afterwards, and the console. -/
structure LoadResult where
  settled : Except JSError (Option SampleCatalog)
  self : SampleQueriesManager
  console : List ConsoleEntry

/-- The entry pushed by `history.pushState(state, title, url)`; the state object is
`{ query: queryText }`. -/
structure HistoryEntry where
  stateQuery : JSString
  title : JSString
  url : JSString
deriving DecidableEq, Repr

/-- The part of `window` that `navigateToSample` reads and writes: the location, whether
`typeof window.performSearch === 'function'`, the history entries pushed so far, the arguments
`window.performSearch` has been called with, and the values assigned to `location.href`. -/
structure Window where
  origin : JSString
  pathname : JSString
  performSearch : Bool
  history : List HistoryEntry
  performSearchCalls : List JSString
  hrefAssignments : List JSString
deriving DecidableEq, Repr

/-! ## The DOM -/

/-- An event listener registered by `createQueryCard`, as the data its closure holds:
`handleClick` (calls `this.navigateToSample(query.text)`), the `keypress` listener (calls
`handleClick` when the key is Enter or Space, after `preventDefault`), and the two hover
listeners (assign `card.style.transform`). -/
inductive Handler where
  | handleClick (queryText : JSString)
  | handleClickOnEnterOrSpace (queryText : JSString)
  | setTransform (value : JSString)
deriving DecidableEq, Repr

/-- A DOM node. `markup html` stands for the nodes the browser's HTML reader makes of `html`
(the result of an `innerHTML` assignment); an element carries its tag, `id`, `className`, other
attributes, listeners and children. An element without `id` attribute has the empty `id`. -/
inductive Node where
  | text (data : JSString)
  | markup (html : JSString)
  | element (tag id className : JSString) (attributes : List (JSString × JSString))
      (listeners : List (JSString × Handler)) (children : List Node)
deriving Repr

/-- The platform's `document.createElement(tag)`. -/
def createElement (tag : JSString) : Node := .element tag [] [] [] [] []

namespace Node

/-- The children of an element (none for other nodes). -/
def children : Node → List Node
  | .element _ _ _ _ _ cs => cs
  | _ => []

/-- The `id` of an element (empty for other nodes). -/
def id : Node → JSString
  | .element _ i _ _ _ _ => i
  | _ => []

/-- The assignment `el.innerHTML = html`: the children become what the reader makes of `html`;
the empty string leaves no child. -/
def setInnerHTML (html : JSString) : Node → Node
  | .element t i c a l _ => .element t i c a l (if html = [] then [] else [.markup html])
  | n => n

/-- The assignment `el.textContent = data`: the children become one text node, none for the
empty string. -/
def setTextContent (data : JSString) : Node → Node
  | .element t i c a l _ => .element t i c a l (if data = [] then [] else [.text data])
  | n => n

/-- The assignment `el.className = c`. -/
def setClassName (className : JSString) : Node → Node
  | .element t i _ a l cs => .element t i className a l cs
  | n => n

/-- The assignment `el.id = i`. -/
def setId (i : JSString) : Node → Node
  | .element t _ c a l cs => .element t i c a l cs
  | n => n

/-- The call `el.setAttribute(name, value)`. -/
def setAttribute (name value : JSString) : Node → Node
  | .element t i c a l cs =>
    if a.any (·.1 = name) then
      .element t i c (a.map fun kv => if kv.1 = name then (name, value) else kv) l cs
    else .element t i c (a ++ [(name, value)]) l cs
  | n => n

/-- The call `el.addEventListener(type, handler)`. -/
def addEventListener (type : JSString) (handler : Handler) : Node → Node
  | .element t i c a l cs => .element t i c a (l ++ [(type, handler)]) cs
  | n => n

/-- The call `el.appendChild(child)` with a freshly created `child`. -/
def appendChild (parent child : Node) : Node :=
  match parent with
  | .element t i c a l cs => .element t i c a l (cs ++ [child])
  | n => n

mutual
/-- The first element with `id` equal to `i` in the subtree of a node, in tree order. -/
def find (i : JSString) : Node → Option Node
  | .text _ => none
  | .markup _ => none
  | .element t id c a l cs =>
    if id = i then some (.element t id c a l cs) else findList i cs
/-- The first element with `id` equal to `i` in the subtrees of a list of siblings. -/
def findList (i : JSString) : List Node → Option Node
  | [] => none
  | n :: ns =>
    match find i n with
    | some e => some e
    | none => findList i ns
end

mutual
/-- The number of elements with `id` equal to `i` in the subtree of a node. -/
def countId (i : JSString) : Node → Nat
  | .text _ => 0
  | .markup _ => 0
  | .element _ id _ _ _ cs => (if id = i then 1 else 0) + countIdList i cs
/-- The number of elements with `id` equal to `i` in the subtrees of a list of siblings. -/
def countIdList (i : JSString) : List Node → Nat
  | [] => 0
  | n :: ns => countId i n + countIdList i ns
end

mutual
/-- The subtree of a node after the first element with `id` equal to `i` has become `new`:
how a mutation made through the reference that `getElementById` returned shows in the tree. -/
def replace (i : JSString) (new : Node) : Node → Node
  | .text d => .text d
  | .markup h => .markup h
  | .element t id c a l cs =>
    if id = i then new else .element t id c a l (replaceList i new cs)
/-- A list of siblings after the first element with `id` equal to `i` has become `new`. -/
def replaceList (i : JSString) (new : Node) : List Node → List Node
  | [] => []
  | n :: ns =>
    if (find i n).isSome then replace i new n :: ns else n :: replaceList i new ns
end

/-- An element whose `id` is `i`. -/
def HasId (i : JSString) (n : Node) : Prop :=
  ∃ t c a l cs, n = .element t i c a l cs

end Node

/-- The document: the children of `document.head`, and the nodes that follow the head element
in tree order (the body element and what it holds). The `html` and `head` elements themselves
carry no `id`. -/
structure Document where
  head : List Node
  body : List Node
deriving Repr

namespace Document

/-- The platform's `document.getElementById(i)`: the first element in tree order whose `id` is
`i`; the empty string finds nothing. -/
def getElementById (document : Document) (i : JSString) : Option Node :=
  if i = [] then none else Node.findList i (document.head ++ document.body)

/-- The number of elements of the document whose `id` is `i`. -/
def countId (document : Document) (i : JSString) : Nat :=
  Node.countIdList i document.head + Node.countIdList i document.body

/-- The document after the element that `getElementById i` returns has become `new`. -/
def replaceElement (document : Document) (i : JSString) (new : Node) : Document :=
  if (Node.findList i document.head).isSome then
    { document with head := Node.replaceList i new document.head }
  else
    { document with body := Node.replaceList i new document.body }

/-- The call `document.head.appendChild(child)`. -/
def headAppendChild (document : Document) (child : Node) : Document :=
  { document with head := document.head ++ [child] }

end Document

/-- The page a `SampleQueriesManager` renders into: the document and the console. -/
structure Page where
  document : Document
  console : List ConsoleEntry

namespace SampleQueriesManager

/-- The constructor: `new SampleQueriesManager(apiBaseUrl)`; the argument is `''` when omitted. -/
def new (apiBaseUrl : JSString) : SampleQueriesManager := ⟨apiBaseUrl, none⟩

/-- The `try` block of `loadSamples`: the manager after it and the value it returns, or the
exception that leaves it. -/
def loadSamplesTry (self : SampleQueriesManager) (fetch : JSString → FetchOutcome) :
    Except JSError (SampleQueriesManager × Option SampleCatalog) :=
  match fetch (self.apiBaseUrl ++ js "/samples") with
  | .rejected reason => throw reason
  | .response ok status json => do
    if !ok then
      throw ⟨js "Error", js "HTTP " ++ numberToString status⟩
    let body ← json
    let self := { self with samples := body }
    return (self, self.samples)

/-- The method `loadSamples`, against a network that answers `fetch`. -/
def loadSamples (self : SampleQueriesManager) (fetch : JSString → FetchOutcome)
    (console : List ConsoleEntry) : LoadResult :=
  match loadSamplesTry self fetch with
  | .ok (self', value) => ⟨.ok value, self', console⟩
  | .error error =>
    ⟨.ok none, self, console ++ [⟨js "Failed to load sample queries:", some error⟩]⟩

/-- The method `navigateToSample`: the window afterwards, or the exception it throws. -/
def navigateToSample (_self : SampleQueriesManager) (window : Window) (queryText : JSString) :
    Except JSError Window := do
  let encodedQuery ← encodeURIComponent queryText
  let newUrl := window.origin ++ window.pathname ++ js "?q=" ++ encodedQuery
  let window := { window with
    history := window.history ++ [HistoryEntry.mk queryText (js "") newUrl] }
  if window.performSearch then
    return { window with performSearchCalls := window.performSearchCalls ++ [queryText] }
  else
    return { window with hrefAssignments := window.hrefAssignments ++ [newUrl] }

/-- The value of `header.innerHTML` in `renderSamples`. -/
def samplesHeaderMarkup : JSString :=
  js "\n            <h2>Try These Sample Searches</h2>\n            <p>Click any example to search immediately</p>\n        "

/-- The expression `query.tags.map(tag => ...).join('')` of `createQueryCard`. -/
def tagBadges (tags : List JSString) : JSString :=
  (tags.map fun tag => js "<span class=\"tag\">" ++ tag ++ js "</span>").flatten

/-- The value of `card.innerHTML` in `createQueryCard`. -/
def cardMarkup (query : Query) : JSString :=
  js "\n            <div class=\"query-text\">\"" ++ query.text ++
  js "\"</div>\n            <div class=\"query-description\">" ++ query.description ++
  js "</div>\n            <div class=\"query-meta\">\n                <span class=\"expected-results\">" ++
  numberToString query.expected_min ++ js "-" ++ numberToString query.expected_max ++
  js " results</span>\n                <div class=\"query-tags\">\n                    " ++
  tagBadges query.tags ++
  js "\n                </div>\n            </div>\n        "

/-- The method `createQueryCard`. -/
def createQueryCard (_self : SampleQueriesManager) (query : Query) : Node :=
  let card := createElement (js "div")
  let card := card.setClassName (js "sample-query-card")
  let card := card.setAttribute (js "role") (js "button")
  let card := card.setAttribute (js "tabindex") (js "0")
  let card := card.setInnerHTML (cardMarkup query)
  let card := card.addEventListener (js "click") (.handleClick query.text)
  let card := card.addEventListener (js "keypress") (.handleClickOnEnterOrSpace query.text)
  let card := card.addEventListener (js "mouseenter") (.setTransform (js "translateY(-2px)"))
  let card := card.addEventListener (js "mouseleave") (.setTransform (js "translateY(0)"))
  card

/-- The body of the `forEach` over the categories in `renderSamples`: the block appended to the
container for one category. -/
def renderCategory (self : SampleQueriesManager) (category : Category) : Node :=
  let categoryDiv := createElement (js "div")
  let categoryDiv := categoryDiv.setClassName (js "sample-category")
  let categoryHeader := createElement (js "h3")
  let categoryHeader := categoryHeader.setTextContent category.category
  let categoryHeader := categoryHeader.setClassName (js "category-title")
  let categoryDiv := categoryDiv.appendChild categoryHeader
  let categoryDesc := createElement (js "p")
  let categoryDesc := categoryDesc.setTextContent category.description
  let categoryDesc := categoryDesc.setClassName (js "category-description")
  let categoryDiv := categoryDiv.appendChild categoryDesc
  let queriesGrid := createElement (js "div")
  let queriesGrid := queriesGrid.setClassName (js "queries-grid")
  let queriesGrid := category.queries.foldl
    (fun queriesGrid query => queriesGrid.appendChild (self.createQueryCard query)) queriesGrid
  categoryDiv.appendChild queriesGrid

/-- The method `renderSamples`. -/
def renderSamples (self : SampleQueriesManager) (page : Page) (containerId : JSString) : Page :=
  match self.samples with
  | none =>
    { page with
      console := page.console ++ [⟨js "No samples loaded. Call loadSamples() first.", none⟩] }
  | some samples =>
    match page.document.getElementById containerId with
    | none =>
      { page with
        console := page.console ++ [⟨js "Container " ++ containerId ++ js " not found", none⟩] }
    | some container =>
      let container := container.setInnerHTML (js "")
      let header := createElement (js "div")
      let header := header.setClassName (js "samples-header")
      let header := header.setInnerHTML samplesHeaderMarkup
      let container := container.appendChild header
      let container := samples.samples.foldl
        (fun container category => container.appendChild (self.renderCategory category))
        container
      { page with document := page.document.replaceElement containerId container }

/-- The array `allQueries` that `renderCompactSamples` fills: for each category in turn,
`allQueries.push(...category.queries.map(q => (\x7b...q, category: category.category\x7d)))`. -/
def allQueries (samples : SampleCatalog) : List CategorisedQuery :=
  samples.samples.foldl
    (fun allQueries category =>
      allQueries ++ category.queries.map fun q => ⟨q, category.category⟩)
    []

/-- The array `selectedQueries` of `renderCompactSamples`: `allQueries.slice(0, maxQueries)`. -/
def selectedQueries (samples : SampleCatalog) (maxQueries : Int) : List CategorisedQuery :=
  jsSlice (allQueries samples) 0 maxQueries

/-- The source text of the `onclick` attribute written for one query text. -/
def compactOnclick (text : JSString) : JSString :=
  js "sampleManager.navigateToSample('" ++ text ++ js "')"

/-- The markup of one button of `renderCompactSamples`. -/
def compactButton (query : CategorisedQuery) : JSString :=
  js "\n                    <button class=\"compact-query-btn\" onclick=\"" ++
  compactOnclick query.query.text ++
  js "\">\n                        " ++ query.query.text ++
  js "\n                    </button>\n                "

/-- The value of `container.innerHTML` in `renderCompactSamples`. -/
def compactMarkup (selectedQueries : List CategorisedQuery) : JSString :=
  js "\n            <h3>Popular Searches</h3>\n            <div class=\"compact-queries\">\n                " ++
  (selectedQueries.map compactButton).flatten ++
  js "\n            </div>\n        "

/-- The method `renderCompactSamples`; `maxQueries` is `none` when the argument is omitted. -/
def renderCompactSamples (self : SampleQueriesManager) (document : Document)
    (containerId : JSString) (maxQueries : Option Int) : Document :=
  let maxQueries := maxQueries.getD 6
  match self.samples with
  | none => document
  | some samples =>
    match document.getElementById containerId with
    | none => document
    | some container =>
      let container := container.setInnerHTML (compactMarkup (selectedQueries samples maxQueries))
      document.replaceElement containerId container

/-- The text before the first apostrophe of `source` and the text after that apostrophe;
`none` when `source` holds no apostrophe. -/
def splitAtApostrophe : JSString → Option (JSString × JSString)
  | [] => none
  | c :: rest =>
    if c = 39 then some ([], rest)
    else (splitAtApostrophe rest).map fun (body, after) => (c :: body, after)

/-- Reads a handler source of the shape `compactOnclick` writes. After the opening
`sampleManager.navigateToSample('`, a single-quoted JavaScript string literal without backslash
runs up to the next apostrophe: the result is that literal's characters and the source text
after its closing apostrophe, `none` when the source does not open this way or the literal is
never closed. The source is the call of `navigateToSample` with the literal as argument only
when `)` is what follows. -/
def onclickLiteral (source : JSString) : Option (JSString × JSString) :=
  let opening := js "sampleManager.navigateToSample('"
  if source.take opening.length = opening then splitAtApostrophe (source.drop opening.length)
  else none

/-- Where the browser's HTML reader stands in markup: in text, inside a tag, inside a double-
or single-quoted attribute value, or inside a comment. -/
inductive MarkupState where
  | data
  | tag
  | doubleQuoted
  | singleQuoted
  | comment
deriving DecidableEq, Repr

/-- An ASCII letter in lower case; other code units as they are. -/
def toAsciiLower (c : Nat) : Nat := if 65 ≤ c ∧ c ≤ 90 then c + 32 else c

/-- The number of `button` start tags, that is of button elements, the browser's HTML reader
makes of markup read from a given state. In text, `<!--` opens a comment, `<button` followed by
white space, `/` or `>` opens a button start tag, and `<` followed by a letter or `/` opens
another tag; a tag runs to the next `>` outside its quoted attribute values; a comment runs to
the next `-->`, and to the end of the markup when there is none. -/
def countButtons : MarkupState → JSString → Nat
  | _, [] => 0
  | .data, c :: rest =>
    if c = 60 then
      if rest.take 3 = js "!--" then countButtons .comment rest
      else if (rest.take 6).map toAsciiLower = js "button" ∧
          (rest.drop 6).head?.any (fun d => [9, 10, 12, 13, 32, 47, 62].contains d) then
        1 + countButtons .tag rest
      else if rest.head?.any (fun d => d = 47 ∨ (97 ≤ toAsciiLower d ∧ toAsciiLower d ≤ 122))
        then countButtons .tag rest
      else countButtons .data rest
    else countButtons .data rest
  | .tag, c :: rest =>
    if c = 34 then countButtons .doubleQuoted rest
    else if c = 39 then countButtons .singleQuoted rest
    else if c = 62 then countButtons .data rest
    else countButtons .tag rest
  | .doubleQuoted, c :: rest =>
    if c = 34 then countButtons .tag rest else countButtons .doubleQuoted rest
  | .singleQuoted, c :: rest =>
    if c = 39 then countButtons .tag rest else countButtons .singleQuoted rest
  | .comment, c :: rest =>
    if (c :: rest).take 3 = js "-->" then countButtons .data rest
    else countButtons .comment rest

end SampleQueriesManager

/-! ## Example data -/

/-- A catalog of two categories with five queries in all. -/
def exampleCatalog : SampleCatalog :=
  ⟨[⟨js "Creatures", js "Creature searches",
      [⟨js "dragon", js "All dragons", 10, 200, [js "creature", js "tribal"]⟩,
       ⟨js "red creature", js "Red creatures", 50, 500, [js "color"]⟩,
       ⟨js "2 mana elf", js "Cheap elves", 5, 40, []⟩]⟩,
    ⟨js "Spells", js "Spell searches",
      [⟨js "blue counterspell", js "Counterspells", 20, 90, [js "color", js "color"]⟩,
       ⟨js "dragon", js "All dragons again", 10, 200, [js "creature"]⟩]⟩]⟩

/-- A catalog of one category whose first query text is `<!--`. -/
def commentCatalog : SampleCatalog :=
  ⟨[⟨js "Any", js "Any search",
      [⟨js "<!--", js "Comment opener", 0, 0, []⟩,
       ⟨js "dragon", js "All dragons", 10, 200, []⟩,
       ⟨js "elf", js "All elves", 5, 40, []⟩]⟩]⟩

/-- A document whose body holds the two containers, each with some earlier content. -/
def exampleDocument : Document :=
  ⟨[.element (js "title") [] [] [] [] [.text (js "Search")]],
   [.element (js "body") [] [] [] []
      [.element (js "div") (js "samples-container") [] [] [] [.text (js "Loading...")],
       .element (js "div") (js "compact-samples") [] [] [] [.text (js "Loading...")]]]⟩

/-! ## The warm-up indicator -/

/-- The fields of a `ServerWarmupIndicator`: `warmupTimer` is `null` (`none`) or the handle
that `setTimeout` returned. -/
structure ServerWarmupIndicator where
  warmupTimer : Option Nat
  isWarmupShown : Bool
deriving DecidableEq, Repr

/-- A timer the indicator has armed and that has neither fired nor been cleared: its handle and
the `searchIndicator` its callback closes over (`none` for `null` or `undefined`, otherwise a
reference to an element of the host page). -/
structure Timer where
  handle : Nat
  searchIndicator : Option Nat
deriving DecidableEq, Repr

/-- The indicator together with the host page it acts on: the handle the next `setTimeout`
returns, the indicator's pending timers, the assignments to `searchIndicator.innerHTML` made so
far (element reference and markup, oldest first), and the document. -/
structure World where
  self : ServerWarmupIndicator
  nextHandle : Nat
  timers : List Timer
  innerHTMLWrites : List (Nat × JSString)
  document : Document

namespace ServerWarmupIndicator

/-- The three kinds of step of the indicator: the two calls a caller makes, and the expiry of
the pending timer with a given handle. -/
inductive Action where
  | startWarmupTimer (searchIndicator : Option Nat)
  | clearWarmupTimer
  | expire (handle : Nat)
deriving DecidableEq, Repr

/-- The constructor. -/
def new : ServerWarmupIndicator := ⟨none, false⟩

/-- A freshly constructed indicator on a page: no timer of its own is pending, nothing has been
written, and `setTimeout` has handed out `usedHandles` handles before (handles are positive
integers). -/
def init (document : Document) (usedHandles : Nat) : World :=
  ⟨new, usedHandles + 1, [], [], document⟩

/-- The platform's `clearTimeout(handle)`. -/
def clearTimeout (w : World) (handle : Nat) : World :=
  { w with timers := w.timers.filter fun t => t.handle ≠ handle }

/-- The platform's `setTimeout(callback, 5000)` for the callback that closes over
`searchIndicator`: the world afterwards and the handle returned. -/
def setTimeout (w : World) (searchIndicator : Option Nat) : World × Nat :=
  ({ w with timers := w.timers ++ [⟨w.nextHandle, searchIndicator⟩],
            nextHandle := w.nextHandle + 1 }, w.nextHandle)

/-- The value of `searchIndicator.innerHTML` in `showWarmupMessage`. -/
def warmupMarkup : JSString :=
  js "\n            <div class=\"warmup-message\">\n                <div class=\"spinner\"></div>\n                <div class=\"warmup-text\">\n                    <div>Server warming up...</div>\n                    <div class=\"warmup-subtext\">This may take a moment after inactivity</div>\n                </div>\n            </div>\n        "

/-- The value of `style.textContent` in `addWarmupStyles`. -/
def warmupCss : JSString :=
  js "\n            .warmup-message \x7b\n                display: flex;\n                align-items: center;\n                gap: 12px;\n                color: #666;\n                font-size: 14px;\n            \x7d\n            \n            .warmup-text \x7b\n                display: flex;\n                flex-direction: column;\n                gap: 4px;\n            \x7d\n            \n            .warmup-subtext \x7b\n                font-size: 12px;\n                color: #888;\n                font-style: italic;\n            \x7d\n            \n            .spinner \x7b\n                width: 20px;\n                height: 20px;\n                border: 2px solid #f3f3f3;\n                border-top: 2px solid #3498db;\n                border-radius: 50%;\n                animation: spin 1s linear infinite;\n            \x7d\n            \n            @keyframes spin \x7b\n                0% \x7b transform: rotate(0deg); \x7d\n                100% \x7b transform: rotate(360deg); \x7d\n            \x7d\n        "

/-- The method `addWarmupStyles`, on the document. -/
def addWarmupStyles (document : Document) : Document :=
  if (document.getElementById (js "warmup-styles")).isSome then
    document
  else
    let style := createElement (js "style")
    let style := style.setId (js "warmup-styles")
    let style := style.setTextContent warmupCss
    document.headAppendChild style

/-- The method `clearWarmupTimer`; `if (this.warmupTimer)` holds for a handle other than 0. -/
def clearWarmupTimer (w : World) : World :=
  let w :=
    match w.self.warmupTimer with
    | some handle =>
      if handle ≠ 0 then
        let w := clearTimeout w handle
        { w with self := { w.self with warmupTimer := none } }
      else w
    | none => w
  { w with self := { w.self with isWarmupShown := false } }

/-- The method `showWarmupMessage`. -/
def showWarmupMessage (w : World) (searchIndicator : Nat) : World :=
  let w := { w with self := { w.self with isWarmupShown := true } }
  let w := { w with innerHTMLWrites := w.innerHTMLWrites ++ [(searchIndicator, warmupMarkup)] }
  { w with document := addWarmupStyles w.document }

/-- The callback that `startWarmupTimer` passes to `setTimeout`. -/
def timerCallback (w : World) (searchIndicator : Option Nat) : World :=
  match searchIndicator with
  | some element => if !w.self.isWarmupShown then showWarmupMessage w element else w
  | none => w

/-- The method `startWarmupTimer`. -/
def startWarmupTimer (w : World) (searchIndicator : Option Nat) : World :=
  let w := clearWarmupTimer w
  let (w, handle) := setTimeout w searchIndicator
  { w with self := { w.self with warmupTimer := some handle } }

/-- Expiry of the pending timer with the given handle: the timer leaves the pending set and its
callback runs. There is no such step when no pending timer has that handle. -/
def expire (w : World) (handle : Nat) : Option World :=
  match w.timers.find? fun t => t.handle = handle with
  | none => none
  | some t =>
    some (timerCallback { w with timers := w.timers.filter fun t => t.handle ≠ handle }
      t.searchIndicator)

/-- One step of the indicator. -/
def step (w : World) : Action → Option World
  | .startWarmupTimer searchIndicator => some (startWarmupTimer w searchIndicator)
  | .clearWarmupTimer => some (clearWarmupTimer w)
  | .expire handle => expire w handle

/-- A sequence of steps; `none` when one of them cannot be taken. -/
def run (w : World) : List Action → Option World
  | [] => some w
  | a :: as => (step w a).bind fun w' => run w' as

/-- The states an indicator reaches from its construction by steps. -/
def Reachable (w : World) : Prop :=
  ∃ document usedHandles actions, run (init document usedHandles) actions = some w

/-- What holds in every reachable state: at most one timer is pending, a pending timer is the
one whose handle `warmupTimer` holds, a handle held is not 0, and the next handle is not 0. -/
def Inv (w : World) : Prop :=
  w.timers.length ≤ 1 ∧ (∀ t ∈ w.timers, w.self.warmupTimer = some t.handle) ∧
    (∀ h, w.self.warmupTimer = some h → h ≠ 0) ∧ 0 < w.nextHandle

/-- A state with an armed timer: a fresh indicator on an empty document after
`startWarmupTimer(element 7)`. -/
def exampleArmed : World := startWarmupTimer (init ⟨[], []⟩ 0) (some 7)

/-- The number of times the warming-up message has been written. -/
def messagesWritten (w : World) : Nat :=
  (w.innerHTMLWrites.filter fun write => write.2 = warmupMarkup).length

end ServerWarmupIndicator

/-! ## Loading and navigation -/

theorem isUnescaped_not_surrogate (c : Nat) (h : isUnescaped c = true) :
    isLeadSurrogate c = false ∧ isTrailSurrogate c = false := by
  simp only [isUnescaped, isLeadSurrogate, isTrailSurrogate, Bool.or_eq_true,
    Bool.and_eq_true, decide_eq_true_eq, List.contains_eq_any_beq, List.any_cons,
    List.any_nil, beq_iff_eq, Bool.or_false, Bool.and_eq_false_imp] at h ⊢
  omega

theorem encodeURIComponent_ok_of_length (n : Nat) :
    ∀ q : JSString, q.length ≤ n → isWellFormed q = true →
      ∃ encoded, encodeURIComponent q = .ok encoded := by
  induction n with
  | zero =>
    intro q hlen _
    have : q = [] := List.length_eq_zero.mp (Nat.le_zero.mp hlen)
    subst this
    exact ⟨[], rfl⟩
  | succ n ih =>
    intro q hlen hwf
    match q, hlen, hwf with
    | [], _, _ => exact ⟨[], rfl⟩
    | [c], _, hwf =>
      rw [isWellFormed.eq_2] at hwf
      rw [encodeURIComponent.eq_2]
      by_cases hu : isUnescaped c = true
      · simp [hu, encodeURIComponent, Except.map]
      · by_cases hl : isLeadSurrogate c = true
        · simp [hl] at hwf
        · by_cases ht : isTrailSurrogate c = true
          · simp [hl, ht] at hwf
          · simp [hu, hl, ht, encodeURIComponent, Except.map]
    | c :: d :: rest', hlen, hwf =>
      have hrest : (d :: rest').length ≤ n := by simpa using hlen
      have hrest' : rest'.length ≤ n := by
        simp only [List.length_cons] at hrest
        omega
      rw [isWellFormed.eq_3] at hwf
      rw [encodeURIComponent.eq_3]
      by_cases hu : isUnescaped c = true
      · have hs := isUnescaped_not_surrogate c hu
        simp only [hs.1, hs.2, Bool.false_eq_true, if_false] at hwf
        obtain ⟨e, he⟩ := ih (d :: rest') hrest hwf
        simp [hu, he, Except.map]
      · by_cases hl : isLeadSurrogate c = true
        · have ht : isTrailSurrogate c = false := by
            simp only [isLeadSurrogate, isTrailSurrogate, Bool.and_eq_true, decide_eq_true_eq,
              Bool.and_eq_false_imp] at hl ⊢
            omega
          simp only [hl, if_true, Bool.and_eq_true] at hwf
          obtain ⟨e, he⟩ := ih rest' hrest' hwf.2
          simp [hu, hl, ht, hwf.1, he, Except.map]
        · by_cases ht : isTrailSurrogate c = true
          · simp [hl, ht] at hwf
          · simp only [hl, ht, Bool.false_eq_true, if_false] at hwf
            obtain ⟨e, he⟩ := ih (d :: rest') hrest hwf
            simp [hu, hl, ht, he, Except.map]

theorem encodeURIComponent_ok (q : JSString) (h : isWellFormed q = true) :
    ∃ encoded, encodeURIComponent q = .ok encoded :=
  encodeURIComponent_ok_of_length q.length q (Nat.le_refl _) h

/-- C1: whenever the fetch issued by `loadSamples` fails (a rejected fetch, a response whose
`ok` flag is false, or a body that `response.json()` rejects), the promise returned by
`loadSamples` resolves to `null` (it does not reject, so no error reaches the caller) and the
manager, with its stored catalog `samples`, is what it was before the call. -/
theorem SampleQueriesManager.loadSamples_failure (self : SampleQueriesManager)
    (fetch : JSString → FetchOutcome) (console : List ConsoleEntry)
    (h : (fetch (self.apiBaseUrl ++ js "/samples")).isFailure = true) :
    (self.loadSamples fetch console).settled = .ok none ∧
      (self.loadSamples fetch console).self = self ∧
      (self.loadSamples fetch console).self.samples = self.samples := by
  unfold SampleQueriesManager.loadSamples SampleQueriesManager.loadSamplesTry
  cases hf : fetch (self.apiBaseUrl ++ js "/samples") with
  | rejected reason => exact ⟨rfl, rfl, rfl⟩
  | response ok status json =>
    rw [hf] at h
    cases ok with
    | false => exact ⟨rfl, rfl, rfl⟩
    | true =>
      cases json with
      | error e => exact ⟨rfl, rfl, rfl⟩
      | ok v => simp [FetchOutcome.isFailure, Except.toBool] at h

/-- A status-500 response, with a body that would parse, against a manager that already holds
a catalog: `loadSamples` resolves to `null` and the catalog stays. -/
theorem SampleQueriesManager.loadSamples_failure_witness :
    (FetchOutcome.response false 500 (.ok (some ⟨[]⟩))).isFailure = true ∧
      ((SampleQueriesManager.mk (js "") (some ⟨[⟨js "Creatures", js "", []⟩]⟩)).loadSamples
          (fun _ => .response false 500 (.ok (some ⟨[]⟩))) []).settled = .ok none ∧
      ((SampleQueriesManager.mk (js "") (some ⟨[⟨js "Creatures", js "", []⟩]⟩)).loadSamples
          (fun _ => .response false 500 (.ok (some ⟨[]⟩))) []).self
        = SampleQueriesManager.mk (js "") (some ⟨[⟨js "Creatures", js "", []⟩]⟩) ∧
      ((SampleQueriesManager.mk (js "") (some ⟨[⟨js "Creatures", js "", []⟩]⟩)).loadSamples
          (fun _ => .response false 500 (.ok (some ⟨[]⟩))) []).self.samples
        = some ⟨[⟨js "Creatures", js "", []⟩]⟩ :=
  ⟨rfl, SampleQueriesManager.loadSamples_failure
    (SampleQueriesManager.mk (js "") (some ⟨[⟨js "Creatures", js "", []⟩]⟩))
    (fun _ => .response false 500 (.ok (some ⟨[]⟩))) [] rfl⟩

/-- C2, as stated, fails: for the query text that is one lone surrogate code unit (`"\uD800"`)
`encodeURIComponent` throws `URIError`, so `navigateToSample` throws before `pushState`: no
history entry is pushed, no search is triggered and `location.href` is not assigned. -/
theorem SampleQueriesManager.navigateToSample_lone_surrogate :
    (SampleQueriesManager.new (js "")).navigateToSample
        ⟨js "https://example.org", js "/search", false, [], [], []⟩ [0xD800]
      = .error uriError := by
  rfl

/-- C2, amended: for every well-formed query text `q` (no lone surrogate), `navigateToSample`
returns normally, having pushed exactly one history entry whose state is `{query: q}` and
whose URL is `origin + pathname + "?q=" + encodeURIComponent(q)`; when `window.performSearch`
is a function it is called once with the raw `q` and `location.href` is not assigned, otherwise
`location.href` is assigned that URL and no search is triggered. For `q = "dragon"` the encoded
text is `dragon`, so the URL ends in `?q=dragon`. -/
theorem SampleQueriesManager.navigateToSample_wellFormed (self : SampleQueriesManager)
    (window : Window) (q : JSString) (h : isWellFormed q = true) :
    (∃ encoded, encodeURIComponent q = .ok encoded ∧
      self.navigateToSample window q = .ok
        { window with
          history := window.history ++
            [⟨q, js "", window.origin ++ window.pathname ++ js "?q=" ++ encoded⟩]
          performSearchCalls :=
            if window.performSearch then window.performSearchCalls ++ [q]
            else window.performSearchCalls
          hrefAssignments :=
            if window.performSearch then window.hrefAssignments
            else window.hrefAssignments ++
              [window.origin ++ window.pathname ++ js "?q=" ++ encoded] }) ∧
      encodeURIComponent (js "dragon") = .ok (js "dragon") := by
  refine ⟨?_, rfl⟩
  obtain ⟨encoded, he⟩ := encodeURIComponent_ok q h
  refine ⟨encoded, he, ?_⟩
  unfold SampleQueriesManager.navigateToSample
  rw [he]
  cases hp : window.performSearch <;> simp [hp, bind, Except.bind, pure, Except.pure]

/-- The text `dragon` on a page without a search function: one entry is pushed and
`location.href` is assigned the URL ending in `?q=dragon`. -/
theorem SampleQueriesManager.navigateToSample_wellFormed_witness :
    isWellFormed (js "dragon") = true ∧
      (SampleQueriesManager.new (js "")).navigateToSample
          ⟨js "https://example.org", js "/search", false, [], [], []⟩ (js "dragon")
        = .ok ⟨js "https://example.org", js "/search", false,
            [⟨js "dragon", js "", js "https://example.org/search?q=dragon"⟩], [],
            [js "https://example.org/search?q=dragon"]⟩ := by
  refine ⟨rfl, ?_⟩
  obtain ⟨⟨encoded, he, hn⟩, hd⟩ := SampleQueriesManager.navigateToSample_wellFormed
    (SampleQueriesManager.new (js "")) ⟨js "https://example.org", js "/search", false, [], [], []⟩
    (js "dragon") rfl
  rw [hd] at he
  cases he
  rw [hn]
  rfl

/-! ## The DOM: finding, counting and replacing elements -/

mutual
theorem Node.find_hasId (i : JSString) : ∀ (n e : Node), Node.find i n = some e → e.HasId i
  | .text _, e, h => by simp [Node.find] at h
  | .markup _, e, h => by simp [Node.find] at h
  | .element t id c a l cs, e, h => by
    rw [Node.find] at h
    split at h
    · rename_i hid
      subst hid
      cases h
      exact ⟨t, c, a, l, cs, rfl⟩
    · exact Node.findList_hasId i cs e h
theorem Node.findList_hasId (i : JSString) :
    ∀ (ns : List Node) (e : Node), Node.findList i ns = some e → e.HasId i
  | [], e, h => by simp [Node.findList] at h
  | n :: ns, e, h => by
    rw [Node.findList] at h
    split at h
    · rename_i e' he'
      cases h
      exact Node.find_hasId i n e he'
    · exact Node.findList_hasId i ns e h
end

theorem Node.find_self {i : JSString} {n : Node} (h : n.HasId i) : Node.find i n = some n := by
  obtain ⟨t, c, a, l, cs, rfl⟩ := h
  simp [Node.find]

theorem Node.replace_self {i : JSString} {n : Node} (new : Node) (h : n.HasId i) :
    Node.replace i new n = new := by
  obtain ⟨t, c, a, l, cs, rfl⟩ := h
  simp [Node.replace]

mutual
theorem Node.find_replace (i : JSString) (new : Node) (hnew : new.HasId i) :
    ∀ n : Node, (Node.find i n).isSome = true → Node.find i (Node.replace i new n) = some new
  | .text _, h => by simp [Node.find] at h
  | .markup _, h => by simp [Node.find] at h
  | .element t id c a l cs, h => by
    rw [Node.find] at h
    rw [Node.replace]
    split
    · exact Node.find_self hnew
    · rename_i hid
      rw [if_neg hid] at h
      rw [Node.find, if_neg hid]
      exact Node.findList_replaceList i new hnew cs h
theorem Node.findList_replaceList (i : JSString) (new : Node) (hnew : new.HasId i) :
    ∀ ns : List Node, (Node.findList i ns).isSome = true →
      Node.findList i (Node.replaceList i new ns) = some new
  | [], h => by simp [Node.findList] at h
  | n :: ns, h => by
    rw [Node.replaceList]
    split
    · rename_i hn
      rw [Node.findList, Node.find_replace i new hnew n hn]
    · rename_i hn
      have hnone : Node.find i n = none := by simpa using hn
      rw [Node.findList, hnone] at h
      rw [Node.findList, hnone]
      exact Node.findList_replaceList i new hnew ns h
end

mutual
theorem Node.replace_of_find_none (i : JSString) (new : Node) :
    ∀ n : Node, Node.find i n = none → Node.replace i new n = n
  | .text _, _ => by simp [Node.replace]
  | .markup _, _ => by simp [Node.replace]
  | .element t id c a l cs, h => by
    rw [Node.find] at h
    split at h
    · simp at h
    · rename_i hid
      rw [Node.replace, if_neg hid, Node.replaceList_of_findList_none i new cs h]
theorem Node.replaceList_of_findList_none (i : JSString) (new : Node) :
    ∀ ns : List Node, Node.findList i ns = none → Node.replaceList i new ns = ns
  | [], _ => by simp [Node.replaceList]
  | n :: ns, h => by
    rw [Node.findList] at h
    split at h
    · simp at h
    · rename_i hn
      rw [Node.replaceList, hn]
      simp [Node.replaceList_of_findList_none i new ns h]
end

mutual
theorem Node.replace_replace (i : JSString) (m new : Node) (hm : m.HasId i) :
    ∀ n : Node, Node.replace i new (Node.replace i m n) = Node.replace i new n
  | .text _ => by simp [Node.replace]
  | .markup _ => by simp [Node.replace]
  | .element t id c a l cs => by
    by_cases hid : id = i
    · rw [Node.replace, if_pos hid, Node.replace_self new hm, Node.replace, if_pos hid]
    · rw [Node.replace, if_neg hid, Node.replace, if_neg hid, Node.replace, if_neg hid,
        Node.replaceList_replaceList i m new hm cs]
theorem Node.replaceList_replaceList (i : JSString) (m new : Node) (hm : m.HasId i) :
    ∀ ns : List Node,
      Node.replaceList i new (Node.replaceList i m ns) = Node.replaceList i new ns
  | [] => by simp [Node.replaceList]
  | n :: ns => by
    by_cases hn : (Node.find i n).isSome = true
    · have h1 : Node.replaceList i m (n :: ns) = Node.replace i m n :: ns := by
        rw [Node.replaceList, if_pos hn]
      have h2 : (Node.find i (Node.replace i m n)).isSome = true := by
        rw [Node.find_replace i m hm n hn]; rfl
      rw [h1, Node.replaceList, if_pos h2, Node.replace_replace i m new hm n, Node.replaceList,
        if_pos hn]
    · have h1 : Node.replaceList i m (n :: ns) = n :: Node.replaceList i m ns := by
        rw [Node.replaceList, if_neg hn]
      rw [h1, Node.replaceList, if_neg hn, Node.replaceList_replaceList i m new hm ns,
        Node.replaceList, if_neg hn]
end

mutual
theorem Node.find_isSome_iff (i : JSString) :
    ∀ n : Node, (Node.find i n).isSome = true ↔ 0 < Node.countId i n
  | .text _ => by simp [Node.find, Node.countId]
  | .markup _ => by simp [Node.find, Node.countId]
  | .element t id c a l cs => by
    by_cases hid : id = i
    · simp [Node.find, Node.countId, hid]
    · simp [Node.find, Node.countId, hid, Node.findList_isSome_iff i cs]
theorem Node.findList_isSome_iff (i : JSString) :
    ∀ ns : List Node, (Node.findList i ns).isSome = true ↔ 0 < Node.countIdList i ns
  | [] => by simp [Node.findList, Node.countIdList]
  | n :: ns => by
    have h1 := Node.find_isSome_iff i n
    have h2 := Node.findList_isSome_iff i ns
    rw [Node.findList, Node.countIdList]
    cases hf : Node.find i n with
    | some e =>
      rw [hf] at h1
      have : 0 < Node.countId i n := h1.mp rfl
      simp
      omega
    | none =>
      rw [hf] at h1
      have : ¬ 0 < Node.countId i n := fun h => by simpa using h1.mpr h
      simp only [h2]
      omega
end

theorem Node.findList_append (i : JSString) (xs ys : List Node) :
    Node.findList i (xs ++ ys) =
      match Node.findList i xs with
      | some e => some e
      | none => Node.findList i ys := by
  induction xs with
  | nil => simp [Node.findList]
  | cons n ns ih =>
    simp only [List.cons_append, Node.findList]
    cases Node.find i n with
    | some e => rfl
    | none => simpa using ih

theorem Node.countIdList_append (i : JSString) (xs ys : List Node) :
    Node.countIdList i (xs ++ ys) = Node.countIdList i xs + Node.countIdList i ys := by
  induction xs with
  | nil => simp [Node.countIdList]
  | cons n ns ih => simp [Node.countIdList, ih, Nat.add_assoc]

theorem Document.getElementById_hasId {document : Document} {i : JSString} {e : Node}
    (h : document.getElementById i = some e) : e.HasId i ∧ i ≠ [] := by
  unfold Document.getElementById at h
  split at h
  · simp at h
  · rename_i hi
    exact ⟨Node.findList_hasId i _ e h, hi⟩

theorem Document.getElementById_replaceElement (document : Document) (i : JSString)
    (old new : Node) (h : document.getElementById i = some old) (hnew : new.HasId i) :
    (document.replaceElement i new).getElementById i = some new := by
  have hi := (Document.getElementById_hasId h).2
  unfold Document.getElementById at h ⊢
  rw [if_neg hi] at h
  rw [if_neg hi]
  rw [Node.findList_append] at h
  unfold Document.replaceElement
  cases hh : Node.findList i document.head with
  | some e =>
    have hs : (Node.findList i document.head).isSome = true := by rw [hh]; rfl
    simp only [hh, Option.isSome_some, if_true]
    rw [Node.findList_append, Node.findList_replaceList i new hnew document.head hs]
  | none =>
    rw [hh] at h
    have hs : (Node.findList i document.body).isSome = true := by
      simp only at h
      rw [h]; rfl
    simp only [hh, Option.isSome_none, Bool.false_eq_true, if_false]
    rw [Node.findList_append, hh]
    exact Node.findList_replaceList i new hnew document.body hs

theorem Document.replaceElement_replaceElement (document : Document) (i : JSString)
    (m new : Node) (hm : m.HasId i) :
    (document.replaceElement i m).replaceElement i new = document.replaceElement i new := by
  unfold Document.replaceElement
  cases hh : Node.findList i document.head with
  | some e =>
    have hs : (Node.findList i document.head).isSome = true := by rw [hh]; rfl
    simp [Node.findList_replaceList i m hm document.head hs,
      Node.replaceList_replaceList i m new hm]
  | none =>
    simp [hh, Node.replaceList_replaceList i m new hm]

theorem Document.getElementById_isSome_iff (document : Document) (i : JSString) (hi : i ≠ []) :
    (document.getElementById i).isSome = true ↔ 0 < document.countId i := by
  unfold Document.getElementById Document.countId
  rw [if_neg hi, Node.findList_isSome_iff, Node.countIdList_append]

/-! ## Rendering the catalog -/

theorem foldl_append_map_eq_flatMap {α β : Type} (f : α → List β) (xs : List α) (acc : List β) :
    xs.foldl (fun acc x => acc ++ f x) acc = acc ++ xs.flatMap f := by
  induction xs generalizing acc with
  | nil => simp
  | cons x xs ih => simp [List.foldl_cons, ih, List.flatMap_cons, List.append_assoc]

theorem SampleQueriesManager.allQueries_eq (samples : SampleCatalog) :
    SampleQueriesManager.allQueries samples =
      samples.samples.flatMap fun category =>
        category.queries.map fun q => CategorisedQuery.mk q category.category := by
  unfold SampleQueriesManager.allQueries
  rw [foldl_append_map_eq_flatMap]
  simp

theorem SampleQueriesManager.allQueries_map_query (samples : SampleCatalog) :
    (SampleQueriesManager.allQueries samples).map (·.query) =
      samples.samples.flatMap (·.queries) := by
  rw [SampleQueriesManager.allQueries_eq]
  induction samples.samples with
  | nil => simp
  | cons category rest ih =>
    simp only [List.flatMap_cons, List.map_append, ih]
    congr 1
    simp [Function.comp_def]

theorem jsSlice_zero_natCast {α : Type} (xs : List α) (n : Nat) :
    jsSlice xs 0 (n : Int) = xs.take (min n xs.length) := by
  unfold jsSlice
  have h0 : ¬ ((n : Int) < 0) := by omega
  have h1 : min (0 : Int) (xs.length : Int) = 0 := by omega
  simp only [lt_self_iff_false, if_false, h0, h1, Int.toNat_zero, List.drop_zero, sub_zero]
  have h2 : (min (n : Int) (xs.length : Int)).toNat = min n xs.length := by omega
  rw [h2]

theorem Node.foldl_appendChild {α : Type} (f : α → Node) (xs : List α)
    (t i c : JSString) (a : List (JSString × JSString)) (l : List (JSString × Handler))
    (cs : List Node) :
    xs.foldl (fun (parent : Node) x => parent.appendChild (f x)) (.element t i c a l cs) =
      .element t i c a l (cs ++ xs.map f) := by
  induction xs generalizing cs with
  | nil => simp
  | cons x xs ih =>
    have h : (Node.element t i c a l cs).appendChild (f x) = .element t i c a l (cs ++ [f x]) :=
      rfl
    rw [List.foldl_cons, h, ih]
    simp

theorem SampleQueriesManager.compactMarkup_ne_nil (selected : List CategorisedQuery) :
    SampleQueriesManager.compactMarkup selected ≠ [] := by
  unfold SampleQueriesManager.compactMarkup
  have h : js "\n            <h3>Popular Searches</h3>\n            <div class=\"compact-queries\">\n                " ≠ [] := by
    decide
  intro hnil
  rw [List.append_eq_nil, List.append_eq_nil] at hnil
  exact h hnil.1.1

theorem SampleQueriesManager.samplesHeaderMarkup_ne_nil :
    SampleQueriesManager.samplesHeaderMarkup ≠ [] := by
  decide

/-- The selection `renderCompactSamples` makes and the markup it assigns: with a loaded catalog
and an existing container, for every non-negative integer `maxQueries` (6 when the argument is
omitted) `selectedQueries` is exactly the first `min(maxQueries, total)` elements of the
concatenation of every category's queries in category order then query order (each with its
category's name attached), and the container's `innerHTML` is assigned `compactMarkup` of
these. What the browser renders of that markup is not part of this statement. -/
theorem SampleQueriesManager.renderCompactSamples_selection (self : SampleQueriesManager)
    (samples : SampleCatalog) (document : Document) (containerId : JSString)
    (maxQueries : Option Nat) (t i c : JSString) (a : List (JSString × JSString))
    (l : List (JSString × Handler)) (prior : List Node)
    (hs : self.samples = some samples)
    (hc : document.getElementById containerId = some (.element t i c a l prior)) :
    SampleQueriesManager.selectedQueries samples ((maxQueries.getD 6 : Nat) : Int) =
        (samples.samples.flatMap fun category =>
          category.queries.map fun q => CategorisedQuery.mk q category.category).take
          (min (maxQueries.getD 6) (samples.samples.flatMap (·.queries)).length) ∧
      (SampleQueriesManager.selectedQueries samples ((maxQueries.getD 6 : Nat) : Int)).map
          (·.query) =
        (samples.samples.flatMap (·.queries)).take
          (min (maxQueries.getD 6) (samples.samples.flatMap (·.queries)).length) ∧
      (self.renderCompactSamples document containerId
          (maxQueries.map Int.ofNat)).getElementById containerId =
        some (.element t i c a l
          [.markup (SampleQueriesManager.compactMarkup
            (SampleQueriesManager.selectedQueries samples ((maxQueries.getD 6 : Nat) : Int)))]) := by
  have hlen : (SampleQueriesManager.allQueries samples).length =
      (samples.samples.flatMap (·.queries)).length := by
    rw [← SampleQueriesManager.allQueries_map_query, List.length_map]
  have hsel : SampleQueriesManager.selectedQueries samples ((maxQueries.getD 6 : Nat) : Int) =
      (SampleQueriesManager.allQueries samples).take
        (min (maxQueries.getD 6) (samples.samples.flatMap (·.queries)).length) := by
    unfold SampleQueriesManager.selectedQueries
    rw [jsSlice_zero_natCast, hlen]
  refine ⟨?_, ?_, ?_⟩
  · rw [hsel, SampleQueriesManager.allQueries_eq]
  · rw [hsel, List.map_take, SampleQueriesManager.allQueries_map_query]
  · have harg : (maxQueries.map Int.ofNat).getD 6 = ((maxQueries.getD 6 : Nat) : Int) := by
      cases maxQueries <;> rfl
    have hid := (Document.getElementById_hasId hc).1
    obtain ⟨t', c', a', l', cs', hid'⟩ := hid
    cases hid'
    unfold SampleQueriesManager.renderCompactSamples
    simp only [hs, hc, harg]
    have hset : ∀ m : JSString, m ≠ [] →
        Node.setInnerHTML m (.element t containerId c a l prior) =
          .element t containerId c a l [.markup m] := by
      intro m hm
      simp [Node.setInnerHTML, hm]
    rw [hset _ (SampleQueriesManager.compactMarkup_ne_nil _)]
    exact Document.getElementById_replaceElement document containerId _ _ hc
      ⟨t, c, a, l, _, rfl⟩

theorem SampleQueriesManager.renderCategory_eq (self : SampleQueriesManager)
    (category : Category) :
    self.renderCategory category =
      .element (js "div") [] (js "sample-category") [] []
        [.element (js "h3") [] (js "category-title") [] []
            (if category.category = [] then [] else [.text category.category]),
          .element (js "p") [] (js "category-description") [] []
            (if category.description = [] then [] else [.text category.description]),
          .element (js "div") [] (js "queries-grid") [] []
            (category.queries.map self.createQueryCard)] := by
  unfold SampleQueriesManager.renderCategory
  simp only [createElement, Node.setClassName, Node.setTextContent, Node.foldl_appendChild,
    List.nil_append]
  simp only [Node.appendChild, List.nil_append, List.cons_append]

theorem SampleQueriesManager.renderSamples_eq (self : SampleQueriesManager)
    (samples : SampleCatalog) (page : Page) (containerId : JSString)
    (t c : JSString) (a : List (JSString × JSString)) (l : List (JSString × Handler))
    (prior : List Node) (hs : self.samples = some samples)
    (hc : page.document.getElementById containerId = some (.element t containerId c a l prior)) :
    self.renderSamples page containerId =
      { page with
        document := page.document.replaceElement containerId
          (.element t containerId c a l
            (.element (js "div") [] (js "samples-header") [] []
                [.markup SampleQueriesManager.samplesHeaderMarkup] ::
              samples.samples.map self.renderCategory)) } := by
  have hempty : js "" = [] := rfl
  unfold SampleQueriesManager.renderSamples
  have happend : ∀ child : Node, (Node.element t containerId c a l []).appendChild child =
      .element t containerId c a l [child] := fun _ => rfl
  simp only [hs, hc, hempty, createElement, Node.setInnerHTML, Node.setClassName, if_true,
    SampleQueriesManager.samplesHeaderMarkup_ne_nil, if_false, happend,
    Node.foldl_appendChild, List.singleton_append]

/-- C6: with a loaded catalog and an existing container, whatever the container held before,
its children after `renderSamples` are exactly one header block followed by one block per
category in catalog order, each block holding the title (`h3`), the description (`p`) and a grid
whose children are exactly the cards `createQueryCard` builds for the category's queries, in
query order; the prior children are gone, the container's own tag, id, class, attributes and
listeners are kept, nothing is logged, and rendering a second time gives the same page as
rendering once. -/
theorem SampleQueriesManager.renderSamples_children (self : SampleQueriesManager)
    (samples : SampleCatalog) (page : Page) (containerId : JSString)
    (t i c : JSString) (a : List (JSString × JSString)) (l : List (JSString × Handler))
    (prior : List Node) (hs : self.samples = some samples)
    (hc : page.document.getElementById containerId = some (.element t i c a l prior)) :
    (self.renderSamples page containerId).document.getElementById containerId =
        some (.element t i c a l
          (.element (js "div") [] (js "samples-header") [] []
              [.markup SampleQueriesManager.samplesHeaderMarkup] ::
            samples.samples.map fun category =>
              .element (js "div") [] (js "sample-category") [] []
                [.element (js "h3") [] (js "category-title") [] []
                    (if category.category = [] then [] else [.text category.category]),
                  .element (js "p") [] (js "category-description") [] []
                    (if category.description = [] then [] else [.text category.description]),
                  .element (js "div") [] (js "queries-grid") [] []
                    (category.queries.map self.createQueryCard)])) ∧
      (self.renderSamples page containerId).console = page.console ∧
      self.renderSamples (self.renderSamples page containerId) containerId =
        self.renderSamples page containerId := by
  obtain ⟨t', c', a', l', cs', hid⟩ := (Document.getElementById_hasId hc).1
  cases hid
  have h1 := SampleQueriesManager.renderSamples_eq self samples page containerId t c a l prior
    hs hc
  have hget := Document.getElementById_replaceElement page.document containerId _
    (.element t containerId c a l
      (.element (js "div") [] (js "samples-header") [] []
          [.markup SampleQueriesManager.samplesHeaderMarkup] ::
        samples.samples.map self.renderCategory)) hc ⟨t, c, a, l, _, rfl⟩
  refine ⟨?_, ?_, ?_⟩
  · rw [h1]
    simp only [hget, Option.some.injEq, Node.element.injEq, true_and, List.cons.injEq]
    exact List.map_congr_left fun category _ =>
      SampleQueriesManager.renderCategory_eq self category
  · rw [h1]
  · have h2 := SampleQueriesManager.renderSamples_eq self samples
      (self.renderSamples page containerId) containerId t c a l _ hs (by rw [h1]; exact hget)
    rw [h2]
    rw [h1]
    simp only [Document.replaceElement_replaceElement _ _ _ _ ⟨t, c, a, l, _, rfl⟩]

/-! ## The warm-up indicator -/

namespace ServerWarmupIndicator

theorem inv_init (document : Document) (usedHandles : Nat) : Inv (init document usedHandles) := by
  refine ⟨by simp [init], ?_, ?_, by simp [init]⟩
  · intro t ht
    simp [init] at ht
  · intro h hh
    simp [init, new] at hh

theorem clearWarmupTimer_eq (w : World) (hw : Inv w) :
    clearWarmupTimer w = { w with self := ⟨none, false⟩, timers := [] } := by
  obtain ⟨hlen, hmem, hnz, _⟩ := hw
  unfold clearWarmupTimer
  cases hwt : w.self.warmupTimer with
  | none =>
    have htimers : w.timers = [] := by
      cases hts : w.timers with
      | nil => rfl
      | cons t ts =>
        have := hmem t (by rw [hts]; exact List.mem_cons_self _ _)
        rw [hwt] at this
        cases this
    cases w with
    | mk self nextHandle timers writes document =>
      cases self with
      | mk wt shown =>
        simp only at hwt htimers
        subst hwt htimers
        rfl
  | some h =>
    have hne : h ≠ 0 := hnz h hwt
    have hfilter : w.timers.filter (fun t => t.handle ≠ h) = [] := by
      rw [List.filter_eq_nil_iff]
      intro t ht
      have := hmem t ht
      rw [hwt] at this
      cases this
      simp
    simp only [hne, ne_eq, not_false_eq_true, if_true, clearTimeout, hfilter]

theorem startWarmupTimer_eq (w : World) (hw : Inv w) (searchIndicator : Option Nat) :
    startWarmupTimer w searchIndicator =
      { w with self := ⟨some w.nextHandle, false⟩, timers := [⟨w.nextHandle, searchIndicator⟩],
               nextHandle := w.nextHandle + 1 } := by
  unfold startWarmupTimer
  rw [clearWarmupTimer_eq w hw]
  simp [setTimeout]

theorem expire_eq (w w' : World) (hw : Inv w) (handle : Nat) (h : expire w handle = some w') :
    ∃ searchIndicator, w.timers = [⟨handle, searchIndicator⟩] ∧
      w.self.warmupTimer = some handle ∧
      w' = timerCallback { w with timers := [] } searchIndicator := by
  obtain ⟨hlen, hmem, _, _⟩ := hw
  unfold expire at h
  cases hts : w.timers with
  | nil => simp [hts] at h
  | cons t ts =>
    have hts' : ts = [] := by
      rw [hts] at hlen
      simp only [List.length_cons] at hlen
      exact List.length_eq_zero.mp (by omega)
    subst hts'
    have hwt := hmem t (by rw [hts]; exact List.mem_cons_self _ _)
    rw [hts] at h
    by_cases hh : t.handle = handle
    · subst hh
      refine ⟨t.searchIndicator, rfl, hwt, ?_⟩
      simp at h
      exact h.symm
    · simp [List.find?, hh] at h

theorem timerCallback_fields (w : World) (searchIndicator : Option Nat) :
    (timerCallback w searchIndicator).self.warmupTimer = w.self.warmupTimer ∧
      (timerCallback w searchIndicator).timers = w.timers ∧
      (timerCallback w searchIndicator).nextHandle = w.nextHandle ∧
      messagesWritten (timerCallback w searchIndicator) ≤ messagesWritten w + 1 := by
  unfold timerCallback
  cases searchIndicator with
  | none => simp
  | some element =>
    cases hshown : w.self.isWarmupShown with
    | true => simp
    | false =>
      simp [showWarmupMessage, messagesWritten, List.filter_append]

theorem inv_step (w w' : World) (a : Action) (hw : Inv w) (h : step w a = some w') : Inv w' := by
  cases a with
  | startWarmupTimer searchIndicator =>
    simp only [step, Option.some.injEq] at h
    subst h
    rw [startWarmupTimer_eq w hw]
    obtain ⟨_, _, _, hpos⟩ := hw
    refine ⟨by simp, ?_, ?_, by simp⟩
    · intro t ht
      simp only [List.mem_singleton] at ht
      subst ht
      rfl
    · intro h hh
      simp only [Option.some.injEq] at hh
      omega
  | clearWarmupTimer =>
    simp only [step, Option.some.injEq] at h
    subst h
    rw [clearWarmupTimer_eq w hw]
    obtain ⟨_, _, _, hpos⟩ := hw
    refine ⟨by simp, ?_, ?_, hpos⟩
    · intro t ht
      simp at ht
    · intro h hh
      simp at hh
  | expire handle =>
    simp only [step] at h
    obtain ⟨searchIndicator, _, _, hw'⟩ := expire_eq w w' hw handle h
    obtain ⟨_, _, hnz, hpos⟩ := hw
    have hf := timerCallback_fields { w with timers := [] } searchIndicator
    subst hw'
    refine ⟨by rw [hf.2.1]; simp, ?_, ?_, by rw [hf.2.2.1]; exact hpos⟩
    · intro t ht
      rw [hf.2.1] at ht
      simp at ht
    · intro h hh
      rw [hf.1] at hh
      exact hnz h hh

theorem inv_run (actions : List Action) :
    ∀ w w' : World, Inv w → run w actions = some w' → Inv w' := by
  induction actions with
  | nil =>
    intro w w' hw h
    simp only [run, Option.some.injEq] at h
    subst h
    exact hw
  | cons a as ih =>
    intro w w' hw h
    simp only [run] at h
    cases hs : step w a with
    | none => simp [hs] at h
    | some w1 =>
      rw [hs] at h
      exact ih w1 w' (inv_step w w1 a hw hs) h

theorem inv_of_reachable (w : World) (hw : Reachable w) : Inv w := by
  obtain ⟨document, usedHandles, actions, h⟩ := hw
  exact inv_run actions _ w (inv_init document usedHandles) h

theorem run_append (xs ys : List Action) (w : World) :
    run w (xs ++ ys) = (run w xs).bind fun w' => run w' ys := by
  induction xs generalizing w with
  | nil => simp [run]
  | cons a as ih =>
    simp only [List.cons_append, run]
    cases step w a with
    | none => simp
    | some w1 => simpa using ih w1

end ServerWarmupIndicator

namespace ServerWarmupIndicator

theorem quiet_run (actions : List Action) :
    ∀ w w' : World, Inv w → w.timers = [] → w.self.isWarmupShown = false →
      (∀ a ∈ actions, ∀ searchIndicator, a ≠ .startWarmupTimer searchIndicator) →
      run w actions = some w' →
      w'.innerHTMLWrites = w.innerHTMLWrites ∧ w'.self.isWarmupShown = false ∧
        w'.timers = [] := by
  induction actions with
  | nil =>
    intro w w' _ ht hs _ h
    simp only [run, Option.some.injEq] at h
    subst h
    exact ⟨rfl, hs, ht⟩
  | cons a as ih =>
    intro w w' hw ht hs hno h
    simp only [run] at h
    cases a with
    | startWarmupTimer searchIndicator =>
      exact absurd rfl (hno _ (List.mem_cons_self _ _) searchIndicator)
    | clearWarmupTimer =>
      simp only [step, Option.some_bind] at h
      have hinv := inv_step w _ .clearWarmupTimer hw rfl
      rw [clearWarmupTimer_eq w hw] at h hinv
      exact ih { w with self := ⟨none, false⟩, timers := [] } w' hinv rfl rfl
        (fun a ha => hno a (List.mem_cons_of_mem _ ha)) h
    | expire handle =>
      simp [step, expire, ht] at h

/-- C4: in every reachable state, once `clearWarmupTimer` has been called (in particular while
the armed timer is still pending) no timer of the indicator is pending, so no expiry step is
possible, and in every state reached afterwards by steps other than `startWarmupTimer` nothing
more has been written to any target and `isWarmupShown` is false. -/
theorem clearWarmupTimer_silences (w : World) (hw : Reachable w) (actions : List Action)
    (w' : World)
    (hno : ∀ a ∈ actions, ∀ searchIndicator, a ≠ .startWarmupTimer searchIndicator)
    (hrun : run (clearWarmupTimer w) actions = some w') :
    (clearWarmupTimer w).timers = [] ∧ (∀ handle, expire (clearWarmupTimer w) handle = none) ∧
      w'.innerHTMLWrites = w.innerHTMLWrites ∧ w'.self.isWarmupShown = false ∧
      w'.timers = [] := by
  have hinv := inv_of_reachable w hw
  have hinv' := inv_step w _ .clearWarmupTimer hinv rfl
  rw [clearWarmupTimer_eq w hinv] at hrun hinv' ⊢
  have h := quiet_run actions _ w' hinv' rfl rfl hno hrun
  exact ⟨rfl, fun handle => by simp [expire], h⟩

theorem armed_run (actions : List Action) :
    ∀ w w' : World, Inv w → (∀ a ∈ actions, ∃ handle, a = .expire handle) →
      run w actions = some w' →
      messagesWritten w' + w'.timers.length ≤ messagesWritten w + w.timers.length ∧
        ∀ t ∈ w'.timers, t ∈ w.timers := by
  induction actions with
  | nil =>
    intro w w' _ _ h
    simp only [run, Option.some.injEq] at h
    subst h
    exact ⟨Nat.le_refl _, fun t ht => ht⟩
  | cons a as ih =>
    intro w w' hw hall h
    obtain ⟨handle, rfl⟩ := hall a (List.mem_cons_self _ _)
    simp only [run, step] at h
    cases he : expire w handle with
    | none => simp [he] at h
    | some w1 =>
      rw [he, Option.some_bind] at h
      have hinv1 := inv_step w w1 (.expire handle) hw he
      obtain ⟨searchIndicator, hts, _, hw1⟩ := expire_eq w w1 hw handle he
      have hf := timerCallback_fields { w with timers := [] } searchIndicator
      rw [← hw1] at hf
      obtain ⟨h1, h2⟩ := ih w1 w' hinv1 (fun a ha => hall a (List.mem_cons_of_mem _ ha)) h
      have hm : messagesWritten { w with timers := [] } = messagesWritten w := rfl
      rw [hf.2.1] at h1 h2
      rw [hm] at hf
      refine ⟨?_, fun t ht => ?_⟩
      · rw [hts]
        simp only [List.length_nil, List.length_singleton] at h1 ⊢
        omega
      · have := h2 t ht
        simp at this

/-- C5: along every sequence of `startWarmupTimer` calls and timer expiries from construction,
with no `clearWarmupTimer` call by the caller, the state reached has at most one pending timer;
and if the most recent `startWarmupTimer` call was made in state `w0` with target
`searchIndicator`, then right after that call the one pending timer is the one it armed (those
pending before were cancelled), a timer still pending now is that one, and the warming-up
message has been written at most once since that call. -/
theorem startWarmupTimer_single_timer (document : Document) (usedHandles : Nat)
    (actions : List Action) (w : World) (hno : Action.clearWarmupTimer ∉ actions)
    (hrun : run (init document usedHandles) actions = some w) :
    w.timers.length ≤ 1 ∧
      ∀ (before : List Action) (searchIndicator : Option Nat) (after : List Action),
        actions = before ++ .startWarmupTimer searchIndicator :: after →
        (∀ a ∈ after, ∀ target, a ≠ .startWarmupTimer target) →
        ∃ w0, run (init document usedHandles) before = some w0 ∧
          (startWarmupTimer w0 searchIndicator).timers = [⟨w0.nextHandle, searchIndicator⟩] ∧
          (startWarmupTimer w0 searchIndicator).self.warmupTimer = some w0.nextHandle ∧
          (∀ t ∈ w.timers, t = ⟨w0.nextHandle, searchIndicator⟩) ∧
          messagesWritten w ≤ messagesWritten (startWarmupTimer w0 searchIndicator) + 1 := by
  refine ⟨(inv_run actions _ w (inv_init document usedHandles) hrun).1, ?_⟩
  intro before searchIndicator after hact hafter
  subst hact
  rw [run_append] at hrun
  cases hb : run (init document usedHandles) before with
  | none => simp [hb] at hrun
  | some w0 =>
    rw [hb] at hrun
    simp only [Option.some_bind, run, step] at hrun
    have hinv0 := inv_run before _ w0 (inv_init document usedHandles) hb
    have hinv1 := inv_step w0 _ (.startWarmupTimer searchIndicator) hinv0 rfl
    have hexp : ∀ a ∈ after, ∃ handle, a = Action.expire handle := by
      intro a ha
      cases a with
      | startWarmupTimer target => exact absurd rfl (hafter _ ha target)
      | clearWarmupTimer =>
        exact absurd (List.mem_append_right _ (List.mem_cons_of_mem _ ha)) hno
      | expire handle => exact ⟨handle, rfl⟩
    obtain ⟨h1, h2⟩ := armed_run after _ w hinv1 hexp hrun
    have hstart := startWarmupTimer_eq w0 hinv0 searchIndicator
    refine ⟨w0, rfl, by rw [hstart], by rw [hstart], ?_, ?_⟩
    · intro t ht
      have := h2 t ht
      rw [hstart] at this
      simpa using this
    · have hlen : (startWarmupTimer w0 searchIndicator).timers.length = 1 := by rw [hstart]; rfl
      omega

/-- C10, as stated, fails: after `startWarmupTimer` and the expiry of the timer it armed (handle
1), `warmupTimer` still holds the handle 1; it is not `null`. -/
theorem warmupTimer_after_firing :
    (run (init ⟨[], []⟩ 0) [.startWarmupTimer (some 7), .expire 1]).map
        (fun w => (w.self.warmupTimer, w.self.isWarmupShown, w.timers)) =
      some (some 1, true, []) := by
  decide

/-- C10, amended: in every state reached right after the armed timer's callback has fired,
`warmupTimer` still holds the handle of the timer that fired (the callback does not empty it),
although no timer is pending any more; the handle is emptied (`null`) by `clearWarmupTimer`,
whether called before or after the firing. -/
theorem expire_keeps_warmupTimer (w : World) (hw : Reachable w) (handle : Nat) (w' : World)
    (h : expire w handle = some w') :
    w'.self.warmupTimer = some handle ∧ w'.timers = [] ∧
      (clearWarmupTimer w').self.warmupTimer = none ∧
      (clearWarmupTimer w).self.warmupTimer = none := by
  have hinv := inv_of_reachable w hw
  have hinv' := inv_step w w' (.expire handle) hinv h
  obtain ⟨searchIndicator, _, hwt, hw'⟩ := expire_eq w w' hinv handle h
  have hf := timerCallback_fields { w with timers := [] } searchIndicator
  rw [← hw'] at hf
  refine ⟨by rw [hf.1]; exact hwt, hf.2.1, ?_, ?_⟩
  · rw [clearWarmupTimer_eq w' hinv']
  · rw [clearWarmupTimer_eq w hinv]

theorem warmupStylesId_ne_nil : js "warmup-styles" ≠ [] := by
  decide

theorem addWarmupStyles_of_pos (document : Document)
    (h : 0 < document.countId (js "warmup-styles")) : addWarmupStyles document = document := by
  unfold addWarmupStyles
  rw [if_pos ((Document.getElementById_isSome_iff document _ warmupStylesId_ne_nil).mpr h)]

theorem addWarmupStyles_of_zero (document : Document)
    (h : document.countId (js "warmup-styles") = 0) :
    (addWarmupStyles document).countId (js "warmup-styles") = 1 := by
  have hnone : ¬ (document.getElementById (js "warmup-styles")).isSome = true := by
    rw [Document.getElementById_isSome_iff document _ warmupStylesId_ne_nil]
    omega
  unfold addWarmupStyles
  rw [if_neg hnone]
  unfold Document.countId at h ⊢
  simp only [Document.headAppendChild, Node.countIdList_append, createElement, Node.setId,
    Node.setTextContent, Node.countIdList, Node.countId, if_true]
  omega

/-- C8: for every document and every `N ≥ 1`, after `N` calls of `addWarmupStyles` the document
holds exactly one element with id `warmup-styles` when it held none before, and is unchanged
when it held one already; a second call in a row changes nothing. -/
theorem addWarmupStyles_idempotent (document : Document) (n : Nat) (hn : 1 ≤ n) :
    (document.countId (js "warmup-styles") = 0 →
        (addWarmupStyles^[n] document).countId (js "warmup-styles") = 1) ∧
      (0 < document.countId (js "warmup-styles") → addWarmupStyles^[n] document = document) ∧
      addWarmupStyles (addWarmupStyles document) = addWarmupStyles document := by
  have hfix : ∀ d : Document, 0 < d.countId (js "warmup-styles") →
      ∀ k, addWarmupStyles^[k] d = d := fun d hd k =>
    Function.iterate_fixed (addWarmupStyles_of_pos d hd) k
  have hsecond : addWarmupStyles (addWarmupStyles document) = addWarmupStyles document := by
    by_cases h0 : document.countId (js "warmup-styles") = 0
    · exact addWarmupStyles_of_pos _ (by rw [addWarmupStyles_of_zero document h0]; omega)
    · have hpos : 0 < document.countId (js "warmup-styles") := by omega
      rw [addWarmupStyles_of_pos document hpos, addWarmupStyles_of_pos document hpos]
  refine ⟨fun h0 => ?_, fun hpos => hfix document hpos n, hsecond⟩
  obtain ⟨k, rfl⟩ : ∃ k, n = k + 1 := ⟨n - 1, by omega⟩
  rw [Function.iterate_succ_apply,
    hfix _ (by rw [addWarmupStyles_of_zero document h0]; omega) k]
  exact addWarmupStyles_of_zero document h0

end ServerWarmupIndicator

/-! ## Text interpolated into markup -/

/-- C7 fails on the code: a query with the single tag `a</span><span class="tag">b` and a
query with the two tags `a`, `b` (otherwise equal) get the very same card from
`createQueryCard`, so the badges read from the card cannot be the tag sequence of both: the
one-tag query is rendered with two badges. -/
theorem SampleQueriesManager.createQueryCard_tag_markup :
    (SampleQueriesManager.new (js "")).createQueryCard
        ⟨js "dragon", js "All dragons", 10, 200, [js "a</span><span class=\"tag\">b"]⟩ =
      (SampleQueriesManager.new (js "")).createQueryCard
        ⟨js "dragon", js "All dragons", 10, 200, [js "a", js "b"]⟩ ∧
      [js "a</span><span class=\"tag\">b"] ≠ [js "a", js "b"] ∧
      SampleQueriesManager.tagBadges [js "a</span><span class=\"tag\">b"] =
        js "<span class=\"tag\">a</span><span class=\"tag\">b</span>" := by
  refine ⟨rfl, by decide, by decide⟩

/-- C9 fails on the code: for the query text `Urza's` the `onclick` source that
`renderCompactSamples` writes is `sampleManager.navigateToSample('Urza's')`. The string literal
it opens is closed by the apostrophe of the text: the literal is `Urza`, and `s')` follows where
`)` should, so the source is not a call of `navigateToSample` with the text. For `dragon` the
literal is the text and `)` follows. -/
theorem SampleQueriesManager.compactOnclick_apostrophe :
    SampleQueriesManager.compactOnclick (js "Urza's") =
        js "sampleManager.navigateToSample('Urza's')" ∧
      SampleQueriesManager.onclickLiteral (SampleQueriesManager.compactOnclick (js "Urza's")) =
        some (js "Urza", js "s')") ∧
      SampleQueriesManager.onclickLiteral (SampleQueriesManager.compactOnclick (js "dragon")) =
        some (js "dragon", js ")") := by
  decide

/-- C3 fails on the code: for a catalog whose three query texts are `<!--`, `dragon` and `elf`,
`renderCompactSamples` (with `maxQueries` omitted) selects all three, in order, but writes each
text unescaped between the button tags. In the markup it assigns to `innerHTML` the text of the
first button opens a comment that is never closed, so the browser makes one button of it, with
no query text in it, and none for `dragon` and `elf`: the queries rendered are not the three
selected. For the example catalog with `maxQueries = 2`, whose texts hold no markup, the two
selected queries get one button each. -/
theorem SampleQueriesManager.renderCompactSamples_comment :
    (SampleQueriesManager.selectedQueries commentCatalog 6).map (·.query.text) =
        [js "<!--", js "dragon", js "elf"] ∧
      ((SampleQueriesManager.mk (js "") (some commentCatalog)).renderCompactSamples
          exampleDocument (js "compact-samples") none).getElementById (js "compact-samples") =
        some (.element (js "div") (js "compact-samples") [] [] []
          [.markup (js "\n            <h3>Popular Searches</h3>\n            <div class=\"compact-queries\">\n                \n                    <button class=\"compact-query-btn\" onclick=\"sampleManager.navigateToSample('<!--')\">\n                        <!--\n                    </button>\n                \n                    <button class=\"compact-query-btn\" onclick=\"sampleManager.navigateToSample('dragon')\">\n                        dragon\n                    </button>\n                \n                    <button class=\"compact-query-btn\" onclick=\"sampleManager.navigateToSample('elf')\">\n                        elf\n                    </button>\n                \n            </div>\n        ")]) ∧
      SampleQueriesManager.countButtons .data
          (SampleQueriesManager.compactMarkup
            (SampleQueriesManager.selectedQueries commentCatalog 6)) = 1 ∧
      SampleQueriesManager.countButtons .data
          (SampleQueriesManager.compactMarkup
            (SampleQueriesManager.selectedQueries exampleCatalog 2)) = 2 := by
  have hmarkup : SampleQueriesManager.compactMarkup
      (SampleQueriesManager.selectedQueries commentCatalog ((6 : Nat) : Int)) =
      js "\n            <h3>Popular Searches</h3>\n            <div class=\"compact-queries\">\n                \n                    <button class=\"compact-query-btn\" onclick=\"sampleManager.navigateToSample('<!--')\">\n                        <!--\n                    </button>\n                \n                    <button class=\"compact-query-btn\" onclick=\"sampleManager.navigateToSample('dragon')\">\n                        dragon\n                    </button>\n                \n                    <button class=\"compact-query-btn\" onclick=\"sampleManager.navigateToSample('elf')\">\n                        elf\n                    </button>\n                \n            </div>\n        " := by
    decide!
  have hrender := (SampleQueriesManager.renderCompactSamples_selection
    (SampleQueriesManager.mk (js "") (some commentCatalog)) commentCatalog exampleDocument
    (js "compact-samples") none (js "div") (js "compact-samples") [] [] []
    [.text (js "Loading...")] rfl rfl).2.2
  rw [show ((none : Option Nat).getD 6 : Nat) = 6 from rfl, hmarkup] at hrender
  exact ⟨by decide!, hrender, by decide!, by decide!⟩

/-! ## The statements at concrete inputs -/

/-- The example catalog rendered into the example document: rendering twice is rendering
once. -/
theorem SampleQueriesManager.renderSamples_children_witness :
    (SampleQueriesManager.mk (js "") (some exampleCatalog)).samples = some exampleCatalog ∧
      exampleDocument.getElementById (js "samples-container") =
        some (.element (js "div") (js "samples-container") [] [] [] [.text (js "Loading...")]) ∧
      (SampleQueriesManager.mk (js "") (some exampleCatalog)).renderSamples
          ((SampleQueriesManager.mk (js "") (some exampleCatalog)).renderSamples
            ⟨exampleDocument, []⟩ (js "samples-container")) (js "samples-container") =
        (SampleQueriesManager.mk (js "") (some exampleCatalog)).renderSamples
          ⟨exampleDocument, []⟩ (js "samples-container") :=
  ⟨rfl, rfl,
    (SampleQueriesManager.renderSamples_children
      (SampleQueriesManager.mk (js "") (some exampleCatalog)) exampleCatalog
      ⟨exampleDocument, []⟩ (js "samples-container") (js "div") (js "samples-container") [] []
      [] [.text (js "Loading...")] rfl rfl).2.2⟩

namespace ServerWarmupIndicator

/-- An armed timer is cleared before it fires; two more `clearWarmupTimer` calls follow:
nothing has been written and `isWarmupShown` is false. -/
theorem clearWarmupTimer_silences_witness :
    Reachable exampleArmed ∧
      run (clearWarmupTimer exampleArmed) [.clearWarmupTimer, .clearWarmupTimer] =
        some ⟨⟨none, false⟩, 2, [], [], ⟨[], []⟩⟩ ∧
      (clearWarmupTimer exampleArmed).timers = [] ∧
      (⟨⟨none, false⟩, 2, [], [], ⟨[], []⟩⟩ : World).innerHTMLWrites =
        exampleArmed.innerHTMLWrites :=
  have h := clearWarmupTimer_silences exampleArmed
    ⟨⟨[], []⟩, 0, [.startWarmupTimer (some 7)], rfl⟩ [.clearWarmupTimer, .clearWarmupTimer]
    ⟨⟨none, false⟩, 2, [], [], ⟨[], []⟩⟩
    (by
      intro a ha searchIndicator
      simp only [List.mem_cons, List.mem_singleton, List.not_mem_nil, or_false, or_self] at ha
      subst ha
      simp)
    rfl
  ⟨⟨⟨[], []⟩, 0, [.startWarmupTimer (some 7)], rfl⟩, rfl, h.1, h.2.2.1⟩

/-- Two `startWarmupTimer` calls and the expiry of the second timer: no timer is pending
afterwards. -/
theorem startWarmupTimer_single_timer_witness :
    Action.clearWarmupTimer ∉
        [Action.startWarmupTimer (some 7), .startWarmupTimer (some 8), .expire 2] ∧
      run (init ⟨[], []⟩ 0) [.startWarmupTimer (some 7), .startWarmupTimer (some 8), .expire 2] =
        some ⟨⟨some 2, true⟩, 3, [], [(8, warmupMarkup)], addWarmupStyles ⟨[], []⟩⟩ ∧
      (⟨⟨some 2, true⟩, 3, [], [(8, warmupMarkup)], addWarmupStyles ⟨[], []⟩⟩ :
        World).timers.length ≤ 1 :=
  ⟨by decide, rfl,
    (startWarmupTimer_single_timer ⟨[], []⟩ 0
      [.startWarmupTimer (some 7), .startWarmupTimer (some 8), .expire 2]
      ⟨⟨some 2, true⟩, 3, [], [(8, warmupMarkup)], addWarmupStyles ⟨[], []⟩⟩
      (by decide) rfl).1⟩

/-- The armed timer of the example state fires: `warmupTimer` still holds its handle 1. -/
theorem expire_keeps_warmupTimer_witness :
    Reachable exampleArmed ∧
      expire exampleArmed 1 =
        some ⟨⟨some 1, true⟩, 2, [], [(7, warmupMarkup)], addWarmupStyles ⟨[], []⟩⟩ ∧
      (⟨⟨some 1, true⟩, 2, [], [(7, warmupMarkup)], addWarmupStyles ⟨[], []⟩⟩ :
        World).self.warmupTimer = some 1 :=
  ⟨⟨⟨[], []⟩, 0, [.startWarmupTimer (some 7)], rfl⟩, rfl,
    (expire_keeps_warmupTimer exampleArmed ⟨⟨[], []⟩, 0, [.startWarmupTimer (some 7)], rfl⟩ 1
      ⟨⟨some 1, true⟩, 2, [], [(7, warmupMarkup)], addWarmupStyles ⟨[], []⟩⟩ rfl).1⟩

/-- Three calls on a document without styles leave exactly one `warmup-styles` element. -/
theorem addWarmupStyles_idempotent_witness :
    1 ≤ 3 ∧ (⟨[], []⟩ : Document).countId (js "warmup-styles") = 0 ∧
      (addWarmupStyles^[3] ⟨[], []⟩).countId (js "warmup-styles") = 1 :=
  ⟨by decide, rfl, (addWarmupStyles_idempotent ⟨[], []⟩ 3 (by decide)).1 rfl⟩

end ServerWarmupIndicator
